import Mathlib

/-!
Verification of the SVGtoPDF coordination layer (src/svg_to_pdf.py).

The development shallowly embeds the pure logic of the CLI tool:
filesystem paths (the fragment of Python pathlib the tool uses),
a filesystem state, the output-path resolver `resolve_output_path`,
the conversion invoker `convert_svg_to_pdf` (with the external
svg2rlg parser supplied as an oracle and the reportlab drawing
modelled by its width, height and affine transform), and the batch
driver `main`.  Python SystemExit / exceptions become `Except String`.
-/

deriving instance DecidableEq for Except

namespace SvgToPdf

/-- A filesystem path, as its list of components (pathlib PurePath.parts,
minus any drive/root anchor, which the tool never inspects). -/
structure Path where
  components : List String
deriving DecidableEq

/-- pathlib Path.name: the final component (empty for an empty path). -/
def Path.name (p : Path) : String :=
  p.components.getLastD ""

/-- pathlib Path.parent: drop the final component. -/
def Path.parent (p : Path) : Path :=
  ⟨p.components.dropLast⟩

/-- pathlib `dir / child` for a single-component child. -/
def Path.join (p : Path) (child : String) : Path :=
  ⟨p.components ++ [child]⟩

/-- String form of a path, str(path), with the POSIX separator. -/
def Path.render (p : Path) : String :=
  String.intercalate "/" p.components

/-- Index of the last dot in a character list (Python str.rfind for a dot). -/
def rfindDot : List Char → Option Nat
  | [] => none
  | c :: cs =>
    match rfindDot cs with
    | some i => some (i + 1)
    | none => if c = '.' then some (0 : Nat) else none

/-- The split point of a file name into stem and suffix: the index of the
last dot, if it is neither leading nor trailing (the pathlib rule
0 < i < len(name) - 1); otherwise none. -/
def splitDotIdx (nm : String) : Option Nat :=
  match rfindDot nm.toList with
  | some i => if 0 < i ∧ i + 1 < nm.toList.length then some i else none
  | none => none

/-- pathlib Path.stem: the final component without its suffix. -/
def Path.stem (p : Path) : String :=
  match splitDotIdx p.name with
  | some i => String.mk (p.name.toList.take i)
  | none => p.name

/-- pathlib Path.suffix: the file extension of the final component,
including the dot, or the empty string. -/
def Path.suffix (p : Path) : String :=
  match splitDotIdx p.name with
  | some i => String.mk (p.name.toList.drop i)
  | none => ""

/-- pathlib Path.with_suffix: replace the final component's suffix
(append when there is none). -/
def Path.with_suffix (p : Path) (sfx : String) : Path :=
  let old := p.suffix
  let newName :=
    if old = "" then p.name ++ sfx
    else String.mk (p.name.toList.take (p.name.toList.length - old.toList.length)) ++ sfx
  ⟨p.components.dropLast ++ [newName]⟩

/-- Python str.lower() restricted to what the tool compares: each
character mapped to its lower-case form. -/
def strLower (s : String) : String :=
  String.mk (s.toList.map Char.toLower)

/-- A filesystem state: which paths exist as directories and which as
non-directory files. -/
structure FS where
  dirs : List Path
  files : List Path
deriving DecidableEq

/-- Path.is_dir(): the path exists and is a directory. -/
def FS.is_dir (fs : FS) (p : Path) : Bool :=
  p ∈ fs.dirs

/-- Path.exists(): the path exists as a directory or as a file. -/
def FS.pathExists (fs : FS) (p : Path) : Bool :=
  p ∈ fs.dirs || p ∈ fs.files

/-- The path itself and all its ancestors. -/
def Path.selfAndAncestors (p : Path) : List Path :=
  (List.range (p.components.length + 1)).map (fun n => ⟨p.components.take n⟩)

/-- Path.mkdir(parents=True, exist_ok=True): the path and its ancestors
become directories (creating an already existing directory is not an
error, per pathlib with exist_ok). -/
def FS.mkdir (fs : FS) (p : Path) : FS :=
  { fs with dirs := fs.dirs ++ p.selfAndAncestors }

/-- Writing a file registers it in the filesystem state. -/
def FS.writeFile (fs : FS) (p : Path) : FS :=
  { fs with files := fs.files ++ [p] }

/-- resolve_output_path from src/svg_to_pdf.py: determine the output path
for a given input file.  SystemExit is modelled as Except.error. -/
def resolve_output_path (fs : FS) (input_path : Path) (output : Option Path)
    (multiple_inputs : Bool) : Except String Path :=
  match output with
  | none => .ok (input_path.with_suffix ".pdf")
  | some o =>
    if fs.is_dir o || (multiple_inputs && fs.pathExists o) then
      .ok (o.join (input_path.stem ++ ".pdf"))
    else if multiple_inputs && !(fs.is_dir o) then
      .error "When converting multiple SVG files the output must be a directory."
    else
      .ok o

/-- DEFAULT_SVG_DPI from src/svg_to_pdf.py. -/
def DEFAULT_SVG_DPI : ℚ := 96

/-- A reportlab drawing as the tool manipulates it: width, height, and the
affine transform (a, b, c, d, e, f). -/
structure Drawing where
  width : ℚ
  height : ℚ
  transform : ℚ × ℚ × ℚ × ℚ × ℚ × ℚ
deriving DecidableEq

/-- reportlab Shape.scale(sx, sy): post-multiply the transform by the
scaling matrix (sx, 0, 0, sy, 0, 0). -/
def Drawing.scale (d : Drawing) (sx sy : ℚ) : Drawing :=
  { d with transform :=
      (d.transform.1 * sx, d.transform.2.1 * sx,
       d.transform.2.2.1 * sy, d.transform.2.2.2.1 * sy,
       d.transform.2.2.2.2.1, d.transform.2.2.2.2.2) }

/-- Observable effects of convert_svg_to_pdf, in order: the svg2rlg parse
call and the renderPDF.drawToFile write. -/
inductive RenderEvent where
  | parsedSvg
  | wrotePdf
deriving DecidableEq

/-- convert_svg_to_pdf from src/svg_to_pdf.py.  The external svg2rlg parser
is an oracle from paths to optional drawings; renderPDF.drawToFile is
modelled as producing the final drawing.  Returns the ordered effect trace
together with the outcome (ValueError as Except.error). -/
def convert_svg_to_pdf (svg2rlg : Path → Option Drawing)
    (input_path output_path : Path) (dpi : ℚ) :
    List RenderEvent × Except String Drawing :=
  match svg2rlg input_path with
  | none => ([.parsedSvg], .error ("Unable to parse SVG file: " ++ input_path.render))
  | some drawing =>
    let scale : ℚ := if dpi ≠ 0 then dpi / DEFAULT_SVG_DPI else 1
    if scale ≤ 0 then
      ([.parsedSvg], .error "DPI must be greater than zero.")
    else
      let d :=
        if scale ≠ 1 then
          ({ drawing with width := drawing.width * scale,
                          height := drawing.height * scale }).scale scale scale
        else drawing
      ([.parsedSvg, .wrotePdf], .ok d)

/-- The value returned by main together with the run's observable output:
exit code, the PDF files written (path and drawing), stdout and stderr. -/
structure MainResult where
  exitCode : Nat
  written : List (Path × Drawing)
  stdoutLines : List String
  stderrLines : List String
deriving DecidableEq

/-- Lines 98-103 of src/svg_to_pdf.py: with an explicit output and multiple
inputs, reject an existing non-directory output, else create the output
directory (with parents) before the loop. -/
def outputPrecheck (fs : FS) (output : Option Path) (multiple_inputs : Bool) :
    Except String FS :=
  match output with
  | some o =>
    if multiple_inputs then
      if fs.pathExists o && !(fs.is_dir o) then
        .error "When converting multiple SVG files the output must be a directory."
      else
        .ok (fs.mkdir o)
    else .ok fs
  | none => .ok fs

/-- The per-input loop of main (lines 107-130 of src/svg_to_pdf.py),
threading the filesystem state and the accumulated result.  A missing
input returns immediately with exit code 1; a non-SVG suffix skips; a
SystemExit from resolve_output_path propagates (it is not caught by the
except clause); a conversion failure is caught, sets exit code 1 and
continues; a success records the written PDF and continues. -/
def mainLoop (svg2rlg : Path → Option Drawing) (output : Option Path)
    (multiple_inputs : Bool) (dpi : ℚ) :
    FS → List Path → MainResult → Except String MainResult
  | _, [], acc => .ok acc
  | fs, input_path :: rest, acc =>
    if !(fs.pathExists input_path) then
      .ok { acc with
            exitCode := 1,
            stderrLines := acc.stderrLines ++
              ["Input file not found: " ++ input_path.render] }
    else if strLower input_path.suffix ≠ ".svg" then
      mainLoop svg2rlg output multiple_inputs dpi fs rest
        { acc with stderrLines := acc.stderrLines ++
            ["Skipping non-SVG file: " ++ input_path.render] }
    else
      match resolve_output_path fs input_path output multiple_inputs with
      | .error e => .error e
      | .ok output_path =>
        let fs1 := fs.mkdir output_path.parent
        match convert_svg_to_pdf svg2rlg input_path output_path dpi with
        | (_, .error exc) =>
          mainLoop svg2rlg output multiple_inputs dpi fs1 rest
            { acc with
              exitCode := 1,
              stderrLines := acc.stderrLines ++
                ["Failed to convert " ++ input_path.render ++ " -> "
                  ++ output_path.render ++ ": " ++ exc] }
        | (_, .ok d) =>
          mainLoop svg2rlg output multiple_inputs dpi (fs1.writeFile output_path) rest
            { acc with
              written := acc.written ++ [(output_path, d)],
              stdoutLines := acc.stdoutLines ++
                ["Converted " ++ input_path.render ++ " -> " ++ output_path.render] }

/-- main from src/svg_to_pdf.py (argument parsing aside): reject a
non-positive DPI, run the output precheck, then the per-input loop. -/
def main (fs : FS) (svg2rlg : Path → Option Drawing) (inputs : List Path)
    (output : Option Path) (dpi : ℚ) : Except String MainResult :=
  let multiple_inputs := decide (1 < inputs.length)
  if dpi ≤ 0 then .error "DPI must be greater than zero."
  else
    match outputPrecheck fs output multiple_inputs with
    | .error e => .error e
    | .ok fs1 => mainLoop svg2rlg output multiple_inputs dpi fs1 inputs ⟨0, [], [], []⟩

/-- Spec-side predicate, following the words of the spec's exit-code
sentence: the run encounters no missing input and every invoked conversion
succeeds (non-SVG inputs are skipped and not counted).  It walks the
inputs exactly as the driver does, so that it can be compared with the
exit code main actually returns. -/
def batchSucceeds (svg2rlg : Path → Option Drawing) (output : Option Path)
    (multiple_inputs : Bool) (dpi : ℚ) : FS → List Path → Bool
  | _, [] => true
  | fs, input_path :: rest =>
    fs.pathExists input_path &&
      (if strLower input_path.suffix ≠ ".svg" then
        batchSucceeds svg2rlg output multiple_inputs dpi fs rest
      else
        match resolve_output_path fs input_path output multiple_inputs with
        | .error _ => false
        | .ok output_path =>
          let fs1 := fs.mkdir output_path.parent
          match convert_svg_to_pdf svg2rlg input_path output_path dpi with
          | (_, .error _) => false
          | (_, .ok _) =>
            batchSucceeds svg2rlg output multiple_inputs dpi
              (fs1.writeFile output_path) rest)

/-! Concrete fixtures used by witnesses and counterexamples. -/

/-- A sample parsed drawing (width 10, height 20, translation transform). -/
def sampleDrawing : Drawing := ⟨10, 20, (1, 0, 0, 1, 5, 6)⟩

/-- A parse oracle that parses a.svg and nothing else. -/
def svgParseSample : Path → Option Drawing :=
  fun p => if p = ⟨["a.svg"]⟩ then some sampleDrawing else none

/-- A parse oracle that fails on every file. -/
def svgParseFailing : Path → Option Drawing := fun _ => none

/-- A filesystem where out exists as a directory. -/
def fsOutDir : FS := ⟨[⟨["out"]⟩], []⟩

/-- A filesystem where out exists as a regular file. -/
def fsOutFile : FS := ⟨[], [⟨["out"]⟩]⟩

/-- A filesystem where a.svg exists as a regular file. -/
def fsWithA : FS := ⟨[], [⟨["a.svg"]⟩]⟩

/-- Appending the same string on the right is injective (used for
distinctness of resolved names). -/
lemma string_append_right_cancel (s t u : String) (h : s ++ u = t ++ u) : s = t := by
  cases s with
  | mk a =>
    cases t with
    | mk b =>
      cases u with
      | mk c =>
        have hd : a ++ c = b ++ c := by
          have := congrArg String.data h
          simpa [String.instAppend, String.append] using this
        exact congrArg String.mk (List.append_cancel_right hd)

/-! Claims about resolve_output_path. -/

/-- Claim C2: with no explicit output, resolve_output_path returns the
input path with its extension replaced by .pdf, for every input path and
either value of the multiple-inputs flag; in particular drawing.svg
resolves to drawing.pdf. -/
theorem resolve_no_output_replaces_extension :
    (∀ (fs : FS) (input_path : Path) (multiple_inputs : Bool),
      resolve_output_path fs input_path none multiple_inputs
        = .ok (input_path.with_suffix ".pdf"))
    ∧ (Path.mk ["drawing.svg"]).with_suffix ".pdf" = ⟨["drawing.pdf"]⟩ := by
  constructor
  · intro fs input_path multiple_inputs
    rfl
  · decide

/-- Claim C3: whenever output names an existing directory, or multiple
inputs were requested and output exists regardless of type,
resolve_output_path returns output joined with the input's stem plus
.pdf. -/
theorem resolve_dir_output_joins_stem (fs : FS) (input_path o : Path)
    (multiple_inputs : Bool)
    (h : (fs.is_dir o || (multiple_inputs && fs.pathExists o)) = true) :
    resolve_output_path fs input_path (some o) multiple_inputs
      = .ok (o.join (input_path.stem ++ ".pdf")) := by
  simp only [resolve_output_path, h, if_true]

/-- Witness for claim C3: inputs a.svg and b.svg with existing output
directory out resolve to out/a.pdf and out/b.pdf. -/
theorem resolve_dir_output_joins_stem_witness :
    resolve_output_path fsOutDir ⟨["a.svg"]⟩ (some ⟨["out"]⟩) true
      = .ok (Path.join ⟨["out"]⟩ (Path.stem ⟨["a.svg"]⟩ ++ ".pdf"))
    ∧ resolve_output_path fsOutDir ⟨["b.svg"]⟩ (some ⟨["out"]⟩) true
      = .ok (Path.join ⟨["out"]⟩ (Path.stem ⟨["b.svg"]⟩ ++ ".pdf")) :=
  ⟨resolve_dir_output_joins_stem fsOutDir ⟨["a.svg"]⟩ ⟨["out"]⟩ true (by decide),
   resolve_dir_output_joins_stem fsOutDir ⟨["b.svg"]⟩ ⟨["out"]⟩ true (by decide)⟩

/-- Counterexample to claim C1: with multiple_inputs true and an output
that exists as a regular file (not a directory), resolve_output_path does
not fail; it returns out/a.pdf. -/
theorem resolve_multi_existing_file_cex :
    fsOutFile.pathExists ⟨["out"]⟩ = true
    ∧ fsOutFile.is_dir ⟨["out"]⟩ = false
    ∧ resolve_output_path fsOutFile ⟨["a.svg"]⟩ (some ⟨["out"]⟩) true
        = .ok ⟨["out", "a.pdf"]⟩ := by
  decide

/-- Claim C1 as amended: when multiple_inputs is true and output exists
but is not a directory, resolve_output_path returns output/(stem).pdf
rather than raising the usage error; the error is reserved for a
nonexistent output (the CLI enforces the directory requirement separately
in main, before the loop). -/
theorem resolve_multi_existing_file_joins (fs : FS) (input_path o : Path)
    (hex : fs.pathExists o = true) (hnd : fs.is_dir o = false) :
    resolve_output_path fs input_path (some o) true
      = .ok (o.join (input_path.stem ++ ".pdf")) := by
  simp only [resolve_output_path, hex, hnd, Bool.false_or, Bool.true_and, if_true]

/-- Witness for amended claim C1 at the counterexample's input. -/
theorem resolve_multi_existing_file_joins_witness :
    resolve_output_path fsOutFile ⟨["a.svg"]⟩ (some ⟨["out"]⟩) true
      = .ok (Path.join ⟨["out"]⟩ (Path.stem ⟨["a.svg"]⟩ ++ ".pdf")) :=
  resolve_multi_existing_file_joins fsOutFile ⟨["a.svg"]⟩ ⟨["out"]⟩
    (by decide) (by decide)

/-- Claim C10: with multiple_inputs true, resolve_output_path raises the
usage error exactly when the given output does not exist; an existing
output (directory or not) always yields output/(stem).pdf. -/
theorem resolve_multi_error_iff_nonexistent (fs : FS) (input_path o : Path) :
    (fs.pathExists o = false →
      resolve_output_path fs input_path (some o) true
        = .error "When converting multiple SVG files the output must be a directory.")
    ∧ (fs.pathExists o = true →
      resolve_output_path fs input_path (some o) true
        = .ok (o.join (input_path.stem ++ ".pdf"))) := by
  constructor
  · intro hne
    have hnd : fs.is_dir o = false := by
      have := hne
      simp only [FS.pathExists, Bool.or_eq_false_iff] at this
      simpa [FS.is_dir] using this.1
    simp [resolve_output_path, hne, hnd]
  · intro hex
    simp only [resolve_output_path, hex, Bool.true_and, Bool.and_true, Bool.or_true, if_true]

/-- Witness for claim C10: with a nonexistent out the resolver errors,
and with out existing as a plain file it returns out/a.pdf. -/
theorem resolve_multi_error_iff_nonexistent_witness :
    (resolve_output_path ⟨[], []⟩ ⟨["a.svg"]⟩ (some ⟨["out"]⟩) true
      = .error "When converting multiple SVG files the output must be a directory.")
    ∧ (resolve_output_path fsOutFile ⟨["a.svg"]⟩ (some ⟨["out"]⟩) true
      = .ok (Path.join ⟨["out"]⟩ (Path.stem ⟨["a.svg"]⟩ ++ ".pdf"))) :=
  ⟨(resolve_multi_error_iff_nonexistent ⟨[], []⟩ ⟨["a.svg"]⟩ ⟨["out"]⟩).1 (by decide),
   (resolve_multi_error_iff_nonexistent fsOutFile ⟨["a.svg"]⟩ ⟨["out"]⟩).2 (by decide)⟩

/-- Counterexample to claim C8: two distinct inputs d1/x.svg and d2/x.svg
share the stem x, so with output directory out both resolve to the same
path out/x.pdf; resolved paths are not pairwise distinct in general. -/
theorem resolve_same_stem_collision_cex :
    (Path.mk ["d1", "x.svg"]) ≠ ⟨["d2", "x.svg"]⟩
    ∧ resolve_output_path fsOutDir ⟨["d1", "x.svg"]⟩ (some ⟨["out"]⟩) true
        = resolve_output_path fsOutDir ⟨["d2", "x.svg"]⟩ (some ⟨["out"]⟩) true
    ∧ resolve_output_path fsOutDir ⟨["d1", "x.svg"]⟩ (some ⟨["out"]⟩) true
        = .ok ⟨["out", "x.pdf"]⟩ := by
  decide

/-- Claim C8 as amended: with an existing output directory each resolved
path is output/(stem).pdf inside that directory, and two resolved paths
are distinct whenever the two inputs' stems are distinct (inputs sharing
a stem collide). -/
theorem resolve_distinct_stems_distinct_paths (fs : FS) (o i j : Path)
    (ho : fs.is_dir o = true) (hstem : i.stem ≠ j.stem) :
    resolve_output_path fs i (some o) true = .ok (o.join (i.stem ++ ".pdf"))
    ∧ resolve_output_path fs j (some o) true = .ok (o.join (j.stem ++ ".pdf"))
    ∧ o.join (i.stem ++ ".pdf") ≠ o.join (j.stem ++ ".pdf") := by
  refine ⟨?_, ?_, ?_⟩
  · simp only [resolve_output_path, ho, Bool.true_or, if_true]
  · simp only [resolve_output_path, ho, Bool.true_or, if_true]
  · intro heq
    apply hstem
    have hcomp := congrArg Path.components heq
    simp only [Path.join] at hcomp
    have hlast := List.append_cancel_left hcomp
    have hname : i.stem ++ ".pdf" = j.stem ++ ".pdf" := by
      injection hlast
    exact string_append_right_cancel _ _ _ hname

/-- Witness for amended claim C8: a.svg and b.svg have distinct stems, so
their resolved paths under out are distinct. -/
theorem resolve_distinct_stems_distinct_paths_witness :
    resolve_output_path fsOutDir ⟨["a.svg"]⟩ (some ⟨["out"]⟩) true
      = .ok (Path.join ⟨["out"]⟩ (Path.stem ⟨["a.svg"]⟩ ++ ".pdf"))
    ∧ resolve_output_path fsOutDir ⟨["b.svg"]⟩ (some ⟨["out"]⟩) true
      = .ok (Path.join ⟨["out"]⟩ (Path.stem ⟨["b.svg"]⟩ ++ ".pdf"))
    ∧ Path.join ⟨["out"]⟩ (Path.stem ⟨["a.svg"]⟩ ++ ".pdf")
      ≠ Path.join ⟨["out"]⟩ (Path.stem ⟨["b.svg"]⟩ ++ ".pdf") :=
  resolve_distinct_stems_distinct_paths fsOutDir ⟨["out"]⟩ ⟨["a.svg"]⟩ ⟨["b.svg"]⟩
    (by decide) (by decide)

/-! Claims about convert_svg_to_pdf. -/

/-- Counterexample to claim C4: dpi = 0 is non-positive, yet
convert_svg_to_pdf does not fail: the guard `dpi / 96 if dpi else 1.0`
turns dpi = 0 into scale 1.0, the SVG is parsed and the PDF written. -/
theorem convert_dpi_zero_renders_cex :
    (0 : ℚ) ≤ 0
    ∧ convert_svg_to_pdf svgParseSample ⟨["a.svg"]⟩ ⟨["a.pdf"]⟩ 0
        = ([.parsedSvg, .wrotePdf], .ok sampleDrawing) := by
  refine ⟨le_refl 0, ?_⟩
  decide

/-- Claim C4 as amended: the fail-fast check for non-positive DPI lives in
main, which errors before any file is processed; convert_svg_to_pdf
itself parses the SVG first and fails only for negative dpi (after the
parse, before any write), while dpi = 0 is treated as scale 1.0 and
renders normally. -/
theorem dpi_validation_location :
    (∀ (fs : FS) (svg2rlg : Path → Option Drawing) (inputs : List Path)
        (output : Option Path) (dpi : ℚ), dpi ≤ 0 →
      main fs svg2rlg inputs output dpi = .error "DPI must be greater than zero.")
    ∧ (∀ (svg2rlg : Path → Option Drawing) (i o : Path) (dpi : ℚ), dpi < 0 →
      (convert_svg_to_pdf svg2rlg i o dpi).1 = [.parsedSvg]
      ∧ ∀ d, (convert_svg_to_pdf svg2rlg i o dpi).2 ≠ .ok d)
    ∧ (∀ (svg2rlg : Path → Option Drawing) (i o : Path) (d : Drawing),
        svg2rlg i = some d →
      convert_svg_to_pdf svg2rlg i o 0 = ([.parsedSvg, .wrotePdf], .ok d)) := by
  refine ⟨?_, ?_, ?_⟩
  · intro fs svg2rlg inputs output dpi h
    simp [main, h]
  · intro svg2rlg i o dpi h
    cases hp : svg2rlg i with
    | none => simp [convert_svg_to_pdf, hp]
    | some d0 =>
      have hne : dpi ≠ 0 := ne_of_lt h
      have hsc : dpi / DEFAULT_SVG_DPI ≤ 0 :=
        le_of_lt (div_neg_of_neg_of_pos h (by norm_num [DEFAULT_SVG_DPI]))
      constructor
      · simp [convert_svg_to_pdf, hp, hne, hsc]
      · intro d
        simp [convert_svg_to_pdf, hp, hne, hsc]
  · intro svg2rlg i o d hp
    norm_num [convert_svg_to_pdf, hp]

/-- Witness for amended claim C4: main rejects dpi = -5 outright;
convert_svg_to_pdf at dpi = -5 has already parsed and writes nothing; at
dpi = 0 it renders the sample drawing unscaled. -/
theorem dpi_validation_location_witness :
    main ⟨[], []⟩ svgParseSample [⟨["a.svg"]⟩] none (-5)
      = .error "DPI must be greater than zero."
    ∧ ((convert_svg_to_pdf svgParseSample ⟨["a.svg"]⟩ ⟨["a.pdf"]⟩ (-5)).1 = [.parsedSvg]
       ∧ ∀ d, (convert_svg_to_pdf svgParseSample ⟨["a.svg"]⟩ ⟨["a.pdf"]⟩ (-5)).2 ≠ .ok d)
    ∧ convert_svg_to_pdf svgParseSample ⟨["a.svg"]⟩ ⟨["a.pdf"]⟩ 0
        = ([.parsedSvg, .wrotePdf], .ok sampleDrawing) :=
  ⟨dpi_validation_location.1 ⟨[], []⟩ svgParseSample [⟨["a.svg"]⟩] none (-5) (by norm_num),
   dpi_validation_location.2.1 svgParseSample ⟨["a.svg"]⟩ ⟨["a.pdf"]⟩ (-5) (by norm_num),
   dpi_validation_location.2.2 svgParseSample ⟨["a.svg"]⟩ ⟨["a.pdf"]⟩ sampleDrawing (by decide)⟩

/-- Claim C5: for positive dpi the parsed drawing's width, height and the
four linear entries of its transform are scaled by dpi/96 before the
write; dpi = 96 leaves the drawing unchanged and dpi = 192 doubles
width, height and coordinate scale. -/
theorem convert_scales_drawing_by_dpi_ratio :
    (∀ (svg2rlg : Path → Option Drawing) (i o : Path) (dpi : ℚ) (d : Drawing),
      svg2rlg i = some d → 0 < dpi →
      convert_svg_to_pdf svg2rlg i o dpi
        = ([.parsedSvg, .wrotePdf], .ok
            ⟨d.width * (dpi / 96), d.height * (dpi / 96),
             (d.transform.1 * (dpi / 96), d.transform.2.1 * (dpi / 96),
              d.transform.2.2.1 * (dpi / 96), d.transform.2.2.2.1 * (dpi / 96),
              d.transform.2.2.2.2.1, d.transform.2.2.2.2.2)⟩))
    ∧ (∀ (svg2rlg : Path → Option Drawing) (i o : Path) (d : Drawing),
        svg2rlg i = some d →
      convert_svg_to_pdf svg2rlg i o 96 = ([.parsedSvg, .wrotePdf], .ok d))
    ∧ (∀ (svg2rlg : Path → Option Drawing) (i o : Path) (d : Drawing),
        svg2rlg i = some d →
      convert_svg_to_pdf svg2rlg i o 192
        = ([.parsedSvg, .wrotePdf], .ok
            ⟨d.width * 2, d.height * 2,
             (d.transform.1 * 2, d.transform.2.1 * 2,
              d.transform.2.2.1 * 2, d.transform.2.2.2.1 * 2,
              d.transform.2.2.2.2.1, d.transform.2.2.2.2.2)⟩)) := by
  have key : ∀ (svg2rlg : Path → Option Drawing) (i o : Path) (dpi : ℚ) (d : Drawing),
      svg2rlg i = some d → 0 < dpi →
      convert_svg_to_pdf svg2rlg i o dpi
        = ([.parsedSvg, .wrotePdf], .ok
            ⟨d.width * (dpi / 96), d.height * (dpi / 96),
             (d.transform.1 * (dpi / 96), d.transform.2.1 * (dpi / 96),
              d.transform.2.2.1 * (dpi / 96), d.transform.2.2.2.1 * (dpi / 96),
              d.transform.2.2.2.2.1, d.transform.2.2.2.2.2)⟩) := by
    intro svg2rlg i o dpi d hp hdpi
    have hne : dpi ≠ 0 := ne_of_gt hdpi
    have hnle : ¬ (dpi / (96 : ℚ) ≤ 0) :=
      not_le.mpr (div_pos hdpi (by norm_num))
    by_cases h1 : dpi / (96 : ℚ) = 1
    · simp [convert_svg_to_pdf, hp, hne, hnle, h1, Drawing.scale, DEFAULT_SVG_DPI]
    · simp [convert_svg_to_pdf, hp, hne, hnle, h1, Drawing.scale, DEFAULT_SVG_DPI]
  refine ⟨key, ?_, ?_⟩
  · intro svg2rlg i o d hp
    have h := key svg2rlg i o 96 d hp (by norm_num)
    rw [h]
    norm_num
  · intro svg2rlg i o d hp
    have h := key svg2rlg i o 192 d hp (by norm_num)
    rw [h]
    norm_num

/-- Witness for claim C5 at the sample drawing: dpi 96 preserves it, dpi
192 doubles width, height and the linear transform entries. -/
theorem convert_scales_drawing_by_dpi_ratio_witness :
    convert_svg_to_pdf svgParseSample ⟨["a.svg"]⟩ ⟨["a.pdf"]⟩ 96
      = ([.parsedSvg, .wrotePdf], .ok sampleDrawing)
    ∧ convert_svg_to_pdf svgParseSample ⟨["a.svg"]⟩ ⟨["a.pdf"]⟩ 192
      = ([.parsedSvg, .wrotePdf], .ok
          ⟨sampleDrawing.width * 2, sampleDrawing.height * 2,
           (sampleDrawing.transform.1 * 2, sampleDrawing.transform.2.1 * 2,
            sampleDrawing.transform.2.2.1 * 2, sampleDrawing.transform.2.2.2.1 * 2,
            sampleDrawing.transform.2.2.2.2.1, sampleDrawing.transform.2.2.2.2.2)⟩) :=
  ⟨convert_scales_drawing_by_dpi_ratio.2.1 svgParseSample ⟨["a.svg"]⟩ ⟨["a.pdf"]⟩
      sampleDrawing (by decide),
   convert_scales_drawing_by_dpi_ratio.2.2 svgParseSample ⟨["a.svg"]⟩ ⟨["a.pdf"]⟩
      sampleDrawing (by decide)⟩

/-! Claims about the batch driver main. -/

/-- The loop returns exit code 0 exactly when the accumulator was clean
and the remaining batch encounters no missing input and no failing
conversion. -/
lemma mainLoop_exit_zero_iff (svg2rlg : Path → Option Drawing) (output : Option Path)
    (multiple_inputs : Bool) (dpi : ℚ) (l : List Path) :
    ∀ (fs : FS) (acc r : MainResult),
      mainLoop svg2rlg output multiple_inputs dpi fs l acc = .ok r →
      (r.exitCode = 0 ↔
        (acc.exitCode = 0
          ∧ batchSucceeds svg2rlg output multiple_inputs dpi fs l = true)) := by
  induction l with
  | nil =>
    intro fs acc r h
    simp only [mainLoop, Except.ok.injEq] at h
    subst h
    simp [batchSucceeds]
  | cons i rest ih =>
    intro fs acc r h
    by_cases hex : fs.pathExists i = true
    case neg =>
      have hexf : fs.pathExists i = false := by
        simpa using hex
      simp only [mainLoop, hexf, Bool.not_false, if_true, Except.ok.injEq] at h
      subst h
      simp [batchSucceeds, hexf]
    case pos =>
      by_cases hsvg : strLower i.suffix = ".svg"
      · cases hres : resolve_output_path fs i output multiple_inputs with
        | error e =>
          simp [mainLoop, hex, hsvg, hres] at h
        | ok outp =>
          rcases hconv : convert_svg_to_pdf svg2rlg i outp dpi with ⟨evs, res⟩
          cases res with
          | error e =>
            have hiff := ih _ _ _ (by simpa [mainLoop, hex, hsvg, hres, hconv] using h)
            rw [hiff]
            simp [batchSucceeds, hex, hsvg, hres, hconv]
          | ok d =>
            have hiff := ih _ _ _ (by simpa [mainLoop, hex, hsvg, hres, hconv] using h)
            rw [hiff]
            simp [batchSucceeds, hex, hsvg, hres, hconv]
      · have hiff := ih _ _ _ (by simpa [mainLoop, hex, hsvg] using h)
        rw [hiff]
        simp [batchSucceeds, hex, hsvg]

/-- Claim C6: when the driver reaches an input that does not exist, it
prints the not-found line to stderr and aborts the whole run at once with
exit code 1, writing nothing for that input or any later one; in
particular main with a missing first input returns exit code 1 with no
files written and no stdout. -/
theorem main_aborts_on_missing_input :
    (∀ (svg2rlg : Path → Option Drawing) (output : Option Path)
        (multiple_inputs : Bool) (dpi : ℚ) (fs : FS) (acc : MainResult)
        (missing : Path) (post : List Path),
      fs.pathExists missing = false →
      mainLoop svg2rlg output multiple_inputs dpi fs (missing :: post) acc
        = .ok { acc with
                exitCode := 1,
                stderrLines := acc.stderrLines ++
                  ["Input file not found: " ++ missing.render] })
    ∧ (∀ (fs : FS) (svg2rlg : Path → Option Drawing) (missing : Path)
        (rest : List Path) (output : Option Path) (dpi : ℚ) (fs1 : FS),
      ¬ dpi ≤ 0 →
      outputPrecheck fs output (decide (1 < (missing :: rest).length)) = .ok fs1 →
      fs1.pathExists missing = false →
      main fs svg2rlg (missing :: rest) output dpi
        = .ok ⟨1, [], [], ["Input file not found: " ++ missing.render]⟩) := by
  have abort : ∀ (svg2rlg : Path → Option Drawing) (output : Option Path)
      (multiple_inputs : Bool) (dpi : ℚ) (fs : FS) (acc : MainResult)
      (missing : Path) (post : List Path),
      fs.pathExists missing = false →
      mainLoop svg2rlg output multiple_inputs dpi fs (missing :: post) acc
        = .ok { acc with
                exitCode := 1,
                stderrLines := acc.stderrLines ++
                  ["Input file not found: " ++ missing.render] } := by
    intro svg2rlg output multiple_inputs dpi fs acc missing post h
    simp [mainLoop, h]
  refine ⟨abort, ?_⟩
  intro fs svg2rlg missing rest output dpi fs1 hdpi hpre hmiss
  have hloop := abort svg2rlg output (decide (1 < (missing :: rest).length)) dpi fs1
    ⟨0, [], [], []⟩ missing rest hmiss
  simp only [main, if_neg hdpi, hpre]
  simpa using hloop

/-- Witness for claim C6: a run whose first input ghost.svg does not
exist aborts at once with exit code 1, leaving later.svg unprocessed and
writing nothing. -/
theorem main_aborts_on_missing_input_witness :
    mainLoop svgParseSample none true 96 ⟨[], []⟩
        (⟨["ghost.svg"]⟩ :: [⟨["later.svg"]⟩]) ⟨0, [], [], []⟩
      = .ok { (⟨0, [], [], []⟩ : MainResult) with
              exitCode := 1,
              stderrLines := ([] : List String) ++
                ["Input file not found: " ++ Path.render ⟨["ghost.svg"]⟩] }
    ∧ main ⟨[], []⟩ svgParseSample [⟨["ghost.svg"]⟩, ⟨["later.svg"]⟩] none 96
      = .ok ⟨1, [], [], ["Input file not found: " ++ Path.render ⟨["ghost.svg"]⟩]⟩ :=
  ⟨main_aborts_on_missing_input.1 svgParseSample none true 96 ⟨[], []⟩
      ⟨0, [], [], []⟩ ⟨["ghost.svg"]⟩ [⟨["later.svg"]⟩] (by decide),
   main_aborts_on_missing_input.2 ⟨[], []⟩ svgParseSample ⟨["ghost.svg"]⟩
      [⟨["later.svg"]⟩] none 96 ⟨[], []⟩ (by norm_num) (by decide) (by decide)⟩

/-- Claim C7: main returns exit code 0 exactly when no input was missing
and every invoked conversion succeeded; a failed conversion sets the
exit code to 1 but the loop continues with the next input, and a non-SVG
input is skipped with a stderr notice and no effect on the exit code. -/
theorem main_exit_zero_iff_batch_succeeds :
    (∀ (fs : FS) (svg2rlg : Path → Option Drawing) (inputs : List Path)
        (output : Option Path) (dpi : ℚ) (fs1 : FS) (r : MainResult),
      outputPrecheck fs output (decide (1 < inputs.length)) = .ok fs1 →
      main fs svg2rlg inputs output dpi = .ok r →
      (r.exitCode = 0 ↔
        batchSucceeds svg2rlg output (decide (1 < inputs.length)) dpi fs1 inputs
          = true))
    ∧ (∀ (svg2rlg : Path → Option Drawing) (output : Option Path)
        (multiple_inputs : Bool) (dpi : ℚ) (fs : FS) (rest : List Path)
        (acc : MainResult) (i : Path),
      fs.pathExists i = true → strLower i.suffix ≠ ".svg" →
      mainLoop svg2rlg output multiple_inputs dpi fs (i :: rest) acc
        = mainLoop svg2rlg output multiple_inputs dpi fs rest
            { acc with stderrLines := acc.stderrLines ++
                ["Skipping non-SVG file: " ++ i.render] })
    ∧ (∀ (svg2rlg : Path → Option Drawing) (output : Option Path)
        (multiple_inputs : Bool) (dpi : ℚ) (fs : FS) (rest : List Path)
        (acc : MainResult) (i outp : Path) (evs : List RenderEvent) (e : String),
      fs.pathExists i = true → strLower i.suffix = ".svg" →
      resolve_output_path fs i output multiple_inputs = .ok outp →
      convert_svg_to_pdf svg2rlg i outp dpi = (evs, .error e) →
      mainLoop svg2rlg output multiple_inputs dpi fs (i :: rest) acc
        = mainLoop svg2rlg output multiple_inputs dpi (fs.mkdir outp.parent) rest
            { acc with
              exitCode := 1,
              stderrLines := acc.stderrLines ++
                ["Failed to convert " ++ i.render ++ " -> "
                  ++ outp.render ++ ": " ++ e] }) := by
  refine ⟨?_, ?_, ?_⟩
  · intro fs svg2rlg inputs output dpi fs1 r hpre hmain
    by_cases hdpi : dpi ≤ 0
    · simp [main, hdpi] at hmain
    · simp only [main, if_neg hdpi, hpre] at hmain
      have hiff := mainLoop_exit_zero_iff svg2rlg output
        (decide (1 < inputs.length)) dpi inputs fs1 ⟨0, [], [], []⟩ r hmain
      simpa using hiff
  · intro svg2rlg output multiple_inputs dpi fs rest acc i hex hsvg
    simp [mainLoop, hex, hsvg]
  · intro svg2rlg output multiple_inputs dpi fs rest acc i outp evs e hex hsvg hres hconv
    simp [mainLoop, hex, hsvg, hres, hconv]

/-- Witness for claim C7: a one-file batch whose conversion fails (the
parser rejects a.svg) exits 1 and batchSucceeds is false; photo.png is
skipped with only a stderr notice; the failing conversion of a.svg
continues the loop with exit code forced to 1. -/
theorem main_exit_zero_iff_batch_succeeds_witness :
    ((1 : Nat) = 0 ↔
      batchSucceeds svgParseFailing none
        (decide (1 < ([⟨["a.svg"]⟩] : List Path).length)) 96 fsWithA [⟨["a.svg"]⟩]
        = true)
    ∧ mainLoop svgParseSample none false 96 ⟨[], [⟨["photo.png"]⟩]⟩
        (⟨["photo.png"]⟩ :: []) ⟨0, [], [], []⟩
      = mainLoop svgParseSample none false 96 ⟨[], [⟨["photo.png"]⟩]⟩ []
          { (⟨0, [], [], []⟩ : MainResult) with
            stderrLines := ([] : List String) ++
              ["Skipping non-SVG file: " ++ Path.render ⟨["photo.png"]⟩] }
    ∧ mainLoop svgParseFailing none false 96 fsWithA
        (⟨["a.svg"]⟩ :: []) ⟨0, [], [], []⟩
      = mainLoop svgParseFailing none false 96 (fsWithA.mkdir (Path.parent ⟨["a.pdf"]⟩)) []
          { (⟨0, [], [], []⟩ : MainResult) with
            exitCode := 1,
            stderrLines := ([] : List String) ++
              ["Failed to convert " ++ Path.render ⟨["a.svg"]⟩ ++ " -> "
                ++ Path.render ⟨["a.pdf"]⟩ ++ ": "
                ++ ("Unable to parse SVG file: " ++ Path.render ⟨["a.svg"]⟩)] } :=
  ⟨main_exit_zero_iff_batch_succeeds.1 fsWithA svgParseFailing [⟨["a.svg"]⟩] none 96
      fsWithA ⟨1, [], [],
        ["Failed to convert " ++ Path.render ⟨["a.svg"]⟩ ++ " -> "
          ++ Path.render ⟨["a.pdf"]⟩ ++ ": "
          ++ ("Unable to parse SVG file: " ++ Path.render ⟨["a.svg"]⟩)]⟩
      (by decide) (by decide),
   main_exit_zero_iff_batch_succeeds.2.1 svgParseSample none false 96
      ⟨[], [⟨["photo.png"]⟩]⟩ [] ⟨0, [], [], []⟩ ⟨["photo.png"]⟩
      (by decide) (by decide),
   main_exit_zero_iff_batch_succeeds.2.2 svgParseFailing none false 96 fsWithA
      [] ⟨0, [], [], []⟩ ⟨["a.svg"]⟩ ⟨["a.pdf"]⟩ [.parsedSvg]
      ("Unable to parse SVG file: " ++ Path.render ⟨["a.svg"]⟩)
      (by decide) (by decide) (by decide) (by decide)⟩

/-- Claim C9: with two or more inputs and an explicit output that already
exists as a regular file, main fails with the usage error in the precheck,
before the per-file loop, so no conversion is performed. -/
theorem main_rejects_existing_file_output (fs : FS)
    (svg2rlg : Path → Option Drawing) (inputs : List Path) (o : Path) (dpi : ℚ)
    (hdpi : 0 < dpi) (hn : 1 < inputs.length)
    (hex : fs.pathExists o = true) (hnd : fs.is_dir o = false) :
    main fs svg2rlg inputs (some o) dpi
      = .error "When converting multiple SVG files the output must be a directory." := by
  have hdpi' : ¬ dpi ≤ 0 := not_le.mpr hdpi
  have hm : decide (1 < inputs.length) = true := decide_eq_true hn
  simp [main, hdpi', outputPrecheck, hm, hex, hnd]

/-- Witness for claim C9: two inputs with out existing as a regular file
make main fail with the usage error. -/
theorem main_rejects_existing_file_output_witness :
    main fsOutFile svgParseSample [⟨["a.svg"]⟩, ⟨["b.svg"]⟩] (some ⟨["out"]⟩) 96
      = .error "When converting multiple SVG files the output must be a directory." :=
  main_rejects_existing_file_output fsOutFile svgParseSample
    [⟨["a.svg"]⟩, ⟨["b.svg"]⟩] ⟨["out"]⟩ 96 (by norm_num) (by decide)
    (by decide) (by decide)

end SvgToPdf
